import Mathlib

/-!
Verification of the HectogonCRM multi-tenant access-control core.

This file shallowly embeds the parts of the backend relevant to the
invite-redemption engine (`app/services/invite_service`), the membership /
authorization service (`app/services/membership_service`) and the Redis-backed
cache service (`app/services/cache_service`), and proves (or refutes)
properties of them.

Modelling conventions:
- `datetime` values are modelled as `Int` (a single timezone-aware timeline,
  matching `ensure_utc_aware` which normalizes everything to UTC);
- MongoDB documents become Lean structures; a single filtered `update_one`
  becomes a conditional function on the document it addresses;
- Python exceptions become explicit error values (`Except`);
- BSON `ObjectId` validity is not modelled: identifiers are plain strings
  (all code paths below are reached with well-formed ids).
-/

namespace HectogonCRM

/-! ## Invite data model (app/models/invite.py, invite_service) -/

/-- Embedding of `InviteStatus` enumeration from `app/models/invite.py`. -/
inductive InviteStatus where
  | pending
  | accepted
  | expired
  | revoked
deriving Repr, DecidableEq

/-- The invite document, the fields used by the invite service.
`expires_at`, `used_at`, timestamps are instants on an `Int` timeline;
`current_uses` / `max_uses` are `Int` as in BSON (Python `int`). -/
structure Invite where
  id : String
  code : String
  organizationId : String
  invitedBy : String
  targetRole : String
  email : Option String
  status : InviteStatus
  expiresAt : Int
  usedBy : Option String
  usedAt : Option Int
  revokedAt : Option Int
  revokedBy : Option String
  maxUses : Int
  currentUses : Int
  createdAt : Int
  updatedAt : Int
deriving Repr, DecidableEq

/-- Input data for invite creation (`InviteCreate` pydantic model:
`organization_id`, `target_role`, optional `email`, optional `expires_at`,
`max_uses` with pydantic default 1, so always present after `model_dump`). -/
structure InviteCreate where
  organizationId : String
  targetRole : String
  email : Option String
  expiresAt : Option Int
  maxUses : Int
deriving Repr, DecidableEq

/-- Python truthiness of an optional string (`if not invite_email: ...`):
`None` and the empty string are falsy. -/
def pyTruthy : Option String → Bool
  | none => false
  | some s => s ≠ ""

/-- Embedding of `invite_service/constants.py`: `VALID_INVITE_ROLES`. -/
def VALID_INVITE_ROLES : List String := ["viewer", "editor", "admin"]

/-- Embedding of `invite_service/constants.py`: `DEFAULT_MAX_USES = 1`. -/
def DEFAULT_MAX_USES : Int := 1

/-- Embedding of `invite_service/constants.py`: `DEFAULT_EXPIRES_HOURS = 168` (7 days),
converted to seconds on our integer timeline. -/
def DEFAULT_EXPIRES_SECONDS : Int := 168 * 3600

/-- Embedding of `invite_service/utils.py` `validate_invite_data`: returns the list of
validation error messages (empty means valid).  Mirrors the Python checks:
required organization id and target role, role in `VALID_INVITE_ROLES`,
`max_uses` a positive integer, `expires_at` (when provided) in the future. -/
def validateInviteData (d : InviteCreate) (now : Int) : List String :=
  (if d.organizationId = "" then ["Organization ID is required"] else [])
  ++ (if d.targetRole = "" then ["Target role is required"] else [])
  ++ (if d.targetRole ≠ "" && !(VALID_INVITE_ROLES.contains d.targetRole)
      then ["Invalid role: " ++ d.targetRole] else [])
  ++ (if d.maxUses ≤ 0 then ["Max uses must be a positive integer"] else [])
  ++ (match d.expiresAt with
      | some e => if e ≤ now then ["Expiration date must be in the future"] else []
      | none => [])

/-- Embedding of `invite_service/utils.py` `create_invite_dict`: builds the stored invite
document.  Server-controlled fields are forced: `current_uses = 0`,
`status = pending`; `expires_at` defaults to `now + 168h` when absent.
The `code` and document `_id` are supplied by the caller
(`create_invite` generates the code, MongoDB assigns the id). -/
def createInviteDict (d : InviteCreate) (invitedBy : String) (now : Int)
    (code : String) (id : String) : Invite :=
  { id := id
    code := code
    organizationId := d.organizationId
    invitedBy := invitedBy
    targetRole := d.targetRole
    email := d.email
    status := .pending
    expiresAt := d.expiresAt.getD (now + DEFAULT_EXPIRES_SECONDS)
    usedBy := none
    usedAt := none
    revokedAt := none
    revokedBy := none
    maxUses := d.maxUses
    currentUses := 0
    createdAt := now
    updatedAt := now }

/-- Embedding of `invite_service/utils.py` `create_atomic_accept_filter`: the filter of the
single conditional `update_one` in `accept_invite`.  The `_id` clause selects
the document (here the document is given directly); the remaining clauses are
`status = pending`, `expires_at > now` (strict), and the `$expr`
`current_uses < max_uses` (strict). -/
def atomicAcceptMatches (inv : Invite) (now : Int) : Bool :=
  inv.status == .pending && decide (now < inv.expiresAt)
    && decide (inv.currentUses < inv.maxUses)

/-- Embedding of `invite_service/utils.py` `create_atomic_accept_update`: the update body of
the conditional `update_one` — `$inc current_uses by 1` and `$set` of
`used_by` / `used_at` / `updated_at`.  Note that `status` is NOT written. -/
def applyAtomicAcceptUpdate (userId : String) (now : Int) (inv : Invite) : Invite :=
  { inv with
      currentUses := inv.currentUses + 1
      usedBy := some userId
      usedAt := some now
      updatedAt := now }

/-- Embedding of `invite_service/utils.py` `create_atomic_accept_update_pipeline`: the
(unused by `accept_invite`) pipeline update that also flips `status` to
`accepted` exactly when the post-increment `current_uses` reaches `max_uses`. -/
def applyAtomicAcceptPipeline (userId : String) (now : Int) (inv : Invite) : Invite :=
  { inv with
      currentUses := inv.currentUses + 1
      usedBy := some userId
      usedAt := some now
      updatedAt := now
      status := if inv.currentUses + 1 ≥ inv.maxUses then .accepted else .pending }

/-- The conditional `update_one(atomic_filter, atomic_update)` of
`accept_invite` applied to the addressed document: returns the new document
and the `modified_count` (1 when the filter matched, else 0). -/
def acceptUpdateStep (userId : String) (now : Int) (inv : Invite) : Invite × Nat :=
  if atomicAcceptMatches inv now then (applyAtomicAcceptUpdate userId now inv, 1)
  else (inv, 0)

/-- Embedding of `invite_service/utils.py` `create_revoke_update_dict` applied by
`revoke_invite`'s `update_one` (unconditional `$set` on the addressed
document). -/
def applyRevokeUpdate (revokedBy : String) (now : Int) (inv : Invite) : Invite :=
  { inv with
      status := .revoked
      revokedBy := some revokedBy
      revokedAt := some now
      updatedAt := now }

/-- Embedding of `cleanup_expired_invites`: `update_many(build_expired_invites_query(),
create_expire_update_dict())` applied to one document — pending invites with
`expires_at < now` (strict `$lt`) get `status := expired`. -/
def applyCleanupExpired (now : Int) (inv : Invite) : Invite :=
  if inv.status == .pending && decide (inv.expiresAt < now)
  then { inv with status := .expired, updatedAt := now }
  else inv

/-- The invite-mutating operations of the service, as they act on a single
invite document: `accept_invite`'s conditional update, `revoke_invite`'s
unconditional revoke, and `cleanup_expired_invites`. -/
inductive InviteOp where
  | accept (userId : String) (now : Int)
  | revoke (revokedBy : String) (now : Int)
  | cleanup (now : Int)
deriving Repr, DecidableEq

/-- Apply one operation to an invite document. -/
def applyInviteOp (inv : Invite) : InviteOp → Invite
  | .accept u now => (acceptUpdateStep u now inv).1
  | .revoke rb now => applyRevokeUpdate rb now inv
  | .cleanup now => applyCleanupExpired now inv

/-- Apply a sequence of operations to an invite document. -/
def applyInviteOps (ops : List InviteOp) (inv : Invite) : Invite :=
  ops.foldl applyInviteOp inv

/-! ## Invite validation (invite_service/utils.py, types.py) -/

/-- Embedding of `InviteValidationResult` enumeration from invite-service types. -/
inductive InviteValidationResult where
  | valid
  | expired
  | revoked
  | maxUsesReached
  | emailMismatch
  | notFound
deriving Repr, DecidableEq

/-- Embedding of `InviteValidation` result object: validity flag, result tag, message. -/
structure InviteValidation where
  isValid : Bool
  result : InviteValidationResult
  message : String
deriving Repr, DecidableEq

/-- Embedding of `invite_service/utils.py` `validate_invite_usability`, on a present invite
document (the `not invite` branch is handled by the caller model, which passes
`Option Invite`).  Checks, in the source's order: revoked status, expired
status, expiry instant (`exp < now` strict), usage quota
(`current_uses >= max_uses`). -/
def validateInviteUsability (inv : Invite) (now : Int) : InviteValidation :=
  if inv.status == .revoked then
    ⟨false, .revoked, "Invite has been revoked"⟩
  else if inv.status == .expired then
    ⟨false, .expired, "Invite has expired"⟩
  else if inv.expiresAt < now then
    ⟨false, .expired, "Invite has expired"⟩
  else if inv.currentUses ≥ inv.maxUses then
    ⟨false, .maxUsesReached, "Invite has reached maximum uses"⟩
  else
    ⟨true, .valid, "Invite is valid"⟩

/-- ASCII lowercase of a character (Python `str.lower()` restricted to the
ASCII range used by email addresses here). -/
def asciiLower (c : Char) : Char :=
  if 'A' ≤ c ∧ c ≤ 'Z' then Char.ofNat (c.toNat + 32) else c

/-- Lowercase a string character-wise (`.lower()`). -/
def strLower (s : String) : String :=
  String.mk (s.data.map asciiLower)

/-- Embedding of `invite_service/utils.py` `check_email_match`: no (falsy) email restriction
always passes; otherwise case-insensitive comparison via `.lower()`. -/
def checkEmailMatch (inv : Invite) (userEmail : String) : Bool :=
  match inv.email with
  | none => true
  | some e => if e = "" then true else strLower e == strLower userEmail

/-! ## Membership data model and service (app/services/membership_service) -/

/-- Embedding of `MembershipRole` enumeration from `app/models/membership.py`. -/
inductive MembershipRole where
  | admin
  | editor
  | viewer
deriving Repr, DecidableEq

/-- Embedding of `MembershipStatus` enumeration from `app/models/membership.py`. -/
inductive MembershipStatus where
  | active
  | inactive
  | pending
  | suspended
deriving Repr, DecidableEq

/-- Embedding of `.value` of a `MembershipRole` (its string form). -/
def MembershipRole.value : MembershipRole → String
  | .admin => "admin"
  | .editor => "editor"
  | .viewer => "viewer"

/-- Embedding of `MembershipRole(s)` — the string-enum constructor, `none` when the string
names no role (Python raises `ValueError` there). -/
def membershipRoleOfString (s : String) : Option MembershipRole :=
  if s = "admin" then some .admin
  else if s = "editor" then some .editor
  else if s = "viewer" then some .viewer
  else none

/-- The membership document, the fields used by the service. -/
structure Membership where
  userId : String
  organizationId : String
  role : MembershipRole
  status : MembershipStatus
  invitedBy : Option String
deriving Repr, DecidableEq

/-- Embedding of `MembershipCreate` input model. -/
structure MembershipCreate where
  userId : String
  organizationId : String
  role : MembershipRole
  status : MembershipStatus
  invitedBy : Option String
deriving Repr, DecidableEq

/-- Embedding of `membership_service/constants.py` `ROLE_HIERARCHY`:
`{"viewer": 1, "editor": 2, "admin": 3}`. -/
def ROLE_HIERARCHY : List (String × Int) :=
  [("viewer", 1), ("editor", 2), ("admin", 3)]

/-- Embedding of `ROLE_HIERARCHY.get(role.value, 0)` — the numeric level of a role. -/
def roleLevel (r : MembershipRole) : Int :=
  ((ROLE_HIERARCHY.lookup r.value).getD 0)

/-- Embedding of `membership_service/utils.py` `has_sufficient_role`:
`user_level >= required_level` over `ROLE_HIERARCHY`. -/
def hasSufficientRole (userRole requiredRole : MembershipRole) : Bool :=
  decide (roleLevel userRole ≥ roleLevel requiredRole)

/-- Embedding of `membership_service/utils.py` `build_membership_query` +
`collection.find_one`: the membership for a `(user_id, organization_id)` pair
in the authoritative store (the store enforces uniqueness of the pair, so the
first match is the match). -/
def findMembership (db : List Membership) (userId organizationId : String) :
    Option Membership :=
  db.find? (fun m => m.userId == userId && m.organizationId == organizationId)

/-- Embedding of `MembershipService.check_user_role`: role of the membership if it exists
and its status is `active`, else `None`.  The read-through cache in
`get_membership` caches exactly the stored document, so the resolution is
modelled directly against the authoritative store. -/
def checkUserRole (db : List Membership) (userId organizationId : String) :
    Option MembershipRole :=
  match findMembership db userId organizationId with
  | some m => if m.status == .active then some m.role else none
  | none => none

/-- Embedding of `MembershipService.has_permission`: `check_user_role` then
`has_sufficient_role`; `False` when no active membership resolves. -/
def hasPermission (db : List Membership) (userId organizationId : String)
    (requiredRole : MembershipRole) : Bool :=
  match checkUserRole db userId organizationId with
  | none => false
  | some r => hasSufficientRole r requiredRole

/-- Errors raised by `MembershipService.create_membership`
(`membership_service/types.py`). -/
inductive MembershipError where
  | userNotFound (msg : String)
  | organizationNotFound (msg : String)
  | duplicateMembership (msg : String)
deriving Repr, DecidableEq

/-- Decidable equality for `Except` results, used to state and decide closed
facts about service outcomes. -/
instance {ε α : Type} [DecidableEq ε] [DecidableEq α] : DecidableEq (Except ε α) := by
  intro a b
  cases a <;> cases b <;> first
    | · rename_i x y
        exact if h : x = y then isTrue (by rw [h]) else isFalse (by intro hc; cases hc; exact h rfl)
    | exact isFalse (by intro h; cases h)

/-- Result of `create_membership`: the outcome, the membership store after the
call, and the permission-cache invalidations performed in the `finally` block
(pairs `(user_id, organization_id)` passed to
`cache_service.invalidate_user_membership`). -/
structure CreateMembershipResult where
  outcome : Except MembershipError Membership
  membershipsAfter : List Membership
  invalidations : List (String × String)
deriving Repr, DecidableEq

/-- Embedding of `MembershipService.create_membership`.  `users` and `orgs` are the id sets
of the `users` / `organizations` collections; `cacheAttached` models whether
the service was constructed with a `cache_service` (the `finally` block
invalidates only `if inserted and self.cache_service`).  `allowExisting` is
the `allow_existing` parameter (default `False` in the source).  The
sequential model takes the non-racing insert path (no `DuplicateKeyError`). -/
def createMembership (users : List String) (orgs : List String)
    (memberships : List Membership) (d : MembershipCreate)
    (allowExisting : Bool) (cacheAttached : Bool) : CreateMembershipResult :=
  if !(users.contains d.userId) then
    ⟨.error (.userNotFound "User not found"), memberships, []⟩
  else if !(orgs.contains d.organizationId) then
    ⟨.error (.organizationNotFound "Organization not found"), memberships, []⟩
  else
    match findMembership memberships d.userId d.organizationId with
    | some existing =>
        if allowExisting then ⟨.ok existing, memberships, []⟩
        else ⟨.error (.duplicateMembership
                "User is already a member of this organization"), memberships, []⟩
    | none =>
        let m : Membership :=
          ⟨d.userId, d.organizationId, d.role, d.status, d.invitedBy⟩
        ⟨.ok m, memberships ++ [m],
          if cacheAttached then [(d.userId, d.organizationId)] else []⟩

/-! ## InviteService.accept_invite (invite_service/service.py, lines 172-267)

`accept_invite` reads the invite (`get_invite_by_code`), validates it, checks
the email restriction, then issues the single conditional `update_one`; on
`modified_count == 0` it re-reads the invite and raises a typed error, on
success it creates the membership (via a `MembershipService(self.db)`
constructed WITHOUT a cache service, and with the default
`allow_existing=False`) and returns the re-read invite.

Concurrency is modelled by distinguishing the document state seen by the first
read (`inviteAtRead`) from the state the conditional update and subsequent
re-read act on (`inviteAtUpdate`), and the two `datetime.now()` instants
(`nowRead` in `validate_invite_usability`, `nowUpdate` in
`create_atomic_accept_filter`). -/

/-- Errors raised out of `accept_invite` (invite-service `types.py`, plus
propagated membership-service errors). -/
inductive AcceptError where
  | notFound (msg : String)
  | expired (msg : String)
  | revoked (msg : String)
  | maxUsesReached (msg : String)
  | emailMismatch (msg : String)
  | valueError (msg : String)
  | membership (e : MembershipError)
deriving Repr, DecidableEq

/-- The world `accept_invite` runs against. `users` maps user id to the user's
email (the `users` collection); `orgs` is the `organizations` id set. -/
structure AcceptCtx where
  inviteAtRead : Option Invite
  inviteAtUpdate : Option Invite
  users : List (String × String)
  orgs : List String
  memberships : List Membership
  nowRead : Int
  nowUpdate : Int
deriving Repr

/-- Result of `accept_invite`: the returned invite or raised error, the invite
document state after the call, the membership store after the call, the cache
invalidations performed, and the `modified_count` the conditional update
reported. -/
structure AcceptResult where
  outcome : Except AcceptError Invite
  inviteAfter : Option Invite
  membershipsAfter : List Membership
  invalidations : List (String × String)
  modifiedCount : Nat
deriving Repr, DecidableEq

/-- Map a failed `validate_invite_usability` to the raised error
(service.py lines 185-193). -/
def errorOfValidation (v : InviteValidation) : AcceptError :=
  match v.result with
  | .expired => .expired v.message
  | .revoked => .revoked v.message
  | .maxUsesReached => .maxUsesReached v.message
  | _ => .notFound "Invite is not usable"

/-- The `modified_count == 0` branch (service.py lines 212-237): re-read the
invite (from the current store state `cur`) and raise the matching typed
error.  The store is not modified. -/
def zeroModifiedResult (ctx : AcceptCtx) (cur : Invite) : AcceptResult :=
  let err : AcceptError :=
    match cur.status with
    | .accepted => .maxUsesReached "Invite has already been accepted"
    | .revoked => .revoked "Invite has been revoked"
    | .expired => .expired "Invite has expired"
    | .pending =>
        if cur.currentUses ≥ cur.maxUses then
          .maxUsesReached "Invite has reached maximum uses"
        else .notFound "Invite is not usable"
  ⟨.error err, some cur, ctx.memberships, [], 0⟩

/-- The atomic-update phase of `accept_invite` (service.py lines 204-260),
reached after validation and the email gate; `inv` is the invite as first
read (its `organization_id` / `target_role` / `invited_by` feed the
membership). -/
def acceptAtomicPhase (ctx : AcceptCtx) (userId : String) (inv : Invite) :
    AcceptResult :=
  match ctx.inviteAtUpdate with
  | none =>
      -- the filtered update matched nothing; the re-read finds no document
      ⟨.error (.notFound "Invite not found"), none, ctx.memberships, [], 0⟩
  | some cur =>
      if atomicAcceptMatches cur ctx.nowUpdate then
        let cur' := applyAtomicAcceptUpdate userId ctx.nowUpdate cur
        match membershipRoleOfString inv.targetRole with
        | none =>
            -- `MembershipRole(invite.target_role)` raises ValueError
            ⟨.error (.valueError "invalid role"), some cur', ctx.memberships, [], 1⟩
        | some role =>
            let mres := createMembership (ctx.users.map (·.1)) ctx.orgs
              ctx.memberships
              ⟨userId, inv.organizationId, role, .active, some inv.invitedBy⟩
              false false
            match mres.outcome with
            | .error e =>
                ⟨.error (.membership e), some cur', ctx.memberships,
                  mres.invalidations, 1⟩
            | .ok _ =>
                ⟨.ok cur', some cur', mres.membershipsAfter,
                  mres.invalidations, 1⟩
      else zeroModifiedResult ctx cur

/-- Embedding of `InviteService.accept_invite(code, user_id)`. -/
def acceptInvite (ctx : AcceptCtx) (userId : String) : AcceptResult :=
  match ctx.inviteAtRead with
  | none =>
      ⟨.error (.notFound "Invite not found"), ctx.inviteAtUpdate,
        ctx.memberships, [], 0⟩
  | some inv =>
      if (validateInviteUsability inv ctx.nowRead).isValid = false then
        ⟨.error (errorOfValidation (validateInviteUsability inv ctx.nowRead)),
          ctx.inviteAtUpdate, ctx.memberships, [], 0⟩
      else if pyTruthy inv.email then
        match ctx.users.lookup userId with
        | none =>
            ⟨.error (.notFound "User not found"), ctx.inviteAtUpdate,
              ctx.memberships, [], 0⟩
        | some userEmail =>
            if checkEmailMatch inv userEmail = false then
              ⟨.error (.emailMismatch "This invite is for a specific email address"),
                ctx.inviteAtUpdate, ctx.memberships, [], 0⟩
            else acceptAtomicPhase ctx userId inv
      else acceptAtomicPhase ctx userId inv

/-! ## Redis model and CacheService (app/services/cache_service)

The Redis backend is a keyed store (key, value, ttl) plus a `failing` flag:
when `failing` is set every command raises (`RedisError`), modelling an
unreachable backend.  Service operations run inside `Except String` and are
wrapped by `safeRedisOp`, the embedding of
`CacheService._safe_redis_operation`, which catches `RedisError` and every
other exception and returns the operation's fallback value. -/

/-- One stored key with its value and ttl (ttl `-1` = no expiry set). -/
structure RedisEntry where
  key : String
  value : String
  ttl : Int
deriving Repr, DecidableEq

/-- The Redis backend state. -/
structure Redis where
  entries : List RedisEntry
  failing : Bool
deriving Repr, DecidableEq

/-- Value stored under a key, if any. -/
def Redis.findVal (s : Redis) (k : String) : Option String :=
  (s.entries.find? (fun e => e.key == k)).map (·.value)

/-- Embedding of `GET key`. -/
def Redis.get (s : Redis) (k : String) : Except String (Option String × Redis) :=
  if s.failing then .error "RedisError" else .ok (s.findVal k, s)

/-- Embedding of `SET key value EX ttl`. -/
def Redis.setex (s : Redis) (k v : String) (ttl : Int) :
    Except String (Unit × Redis) :=
  if s.failing then .error "RedisError"
  else .ok ((), ⟨⟨k, v, ttl⟩ :: s.entries.filter (fun e => e.key ≠ k), s.failing⟩)

/-- Embedding of `DEL key...` — returns the number of keys removed. -/
def Redis.delMany (s : Redis) (ks : List String) : Except String (Nat × Redis) :=
  if s.failing then .error "RedisError"
  else .ok ((s.entries.filter (fun e => ks.contains e.key)).length,
            ⟨s.entries.filter (fun e => !(ks.contains e.key)), s.failing⟩)

/-- Embedding of `GETDEL key` (Redis ≥ 6.2): atomically return and remove the value. -/
def Redis.getdel (s : Redis) (k : String) : Except String (Option String × Redis) :=
  if s.failing then .error "RedisError"
  else .ok (s.findVal k, ⟨s.entries.filter (fun e => e.key ≠ k), s.failing⟩)

/-- Single-`*` glob matching used by `SCAN ... MATCH pattern`. -/
def globMatchAux (p s : List Char) : Bool :=
  match p, s with
  | [], [] => true
  | [], _ :: _ => false
  | c :: ps, [] => c == '*' && globMatchAux ps []
  | c :: ps, x :: xs =>
      if c == '*' then globMatchAux ps (x :: xs) || globMatchAux (c :: ps) xs
      else c == x && globMatchAux ps xs
termination_by p.length + s.length
decreasing_by all_goals simp +arith [List.length]

/-- Glob matching on strings. -/
def globMatch (pattern s : String) : Bool :=
  globMatchAux pattern.data s.data

/-- Embedding of `SCAN ... MATCH pattern` — all stored keys matching the glob pattern. -/
def Redis.scanKeys (s : Redis) (pattern : String) :
    Except String (List String × Redis) :=
  if s.failing then .error "RedisError"
  else .ok ((s.entries.map (·.key)).filter (globMatch pattern), s)

/-- Embedding of `TTL key` — the stored ttl, `-2` when the key is absent. -/
def Redis.ttlOf (s : Redis) (k : String) : Except String (Int × Redis) :=
  if s.failing then .error "RedisError"
  else .ok ((match s.entries.find? (fun e => e.key == k) with
             | some e => e.ttl
             | none => -2), s)

/-- Embedding of `CacheService._safe_redis_operation`: run the operation; on `RedisError`
or any other exception return the fallback value (logging elided). -/
def safeRedisOp {α : Type} (fallback : α)
    (op : Redis → Except String (α × Redis)) (s : Redis) : α × Redis :=
  match op s with
  | .ok r => r
  | .error _ => (fallback, s)

/-! ### Key patterns and TTLs (cache_service/constants.py) -/

def DASHBOARD_STATS_KEY : String := "dashboard:stats:{organization_id}"

def REFRESH_TOKEN_KEY : String := "refresh_token:{user_id}:{session_id}"

def OAUTH_STATE_KEY : String := "oauth_state:{state_hash}"

def PASSWORD_RESET_KEY : String := "password_reset:{token_hash}"

def EMAIL_VERIFICATION_KEY : String := "email_verification:{token_hash}"

def JTI_DENYLIST_KEY : String := "jti_denylist:{jti}"

def USER_MEMBERSHIPS_KEY : String := "user_memberships:{organization_id}:{user_id}"

def USER_MEMBERSHIPS_PATTERN_BY_USER : String := "user_memberships:*:{user_id}"

def USER_MEMBERSHIPS_PATTERN_BY_ORG : String := "user_memberships:{organization_id}:*"

def TOKEN_CLEANUP_PATTERNS : List String :=
  ["refresh_token:*", "oauth_state:*", "password_reset:*",
   "email_verification:*", "jti_denylist:*"]

def OAUTH_STATE_TTL : Int := 600

def PASSWORD_RESET_TTL : Int := 3600

def EMAIL_VERIFICATION_TTL : Int := 86400

/-! ### cache_service/utils.py -/

/-- Names appearing in `{...}` placeholders of a key pattern, in order.
`acc = none` outside braces, `some cs` accumulating a (reversed) name. -/
def scanPlaceholders : List Char → Option (List Char) → List String
  | [], _ => []
  | c :: rest, none =>
      if c = '{' then scanPlaceholders rest (some [])
      else scanPlaceholders rest none
  | c :: rest, some acc =>
      if c = '}' then String.mk acc.reverse :: scanPlaceholders rest none
      else scanPlaceholders rest (some (c :: acc))

/-- Substitute `{name}` placeholders from the argument list (assumes every
placeholder resolves; `formatCacheKey` checks that first). -/
def substPlaceholders (args : List (String × String)) :
    List Char → Option (List Char) → String
  | [], _ => ""
  | c :: rest, none =>
      if c = '{' then substPlaceholders args rest (some [])
      else String.mk [c] ++ substPlaceholders args rest none
  | c :: rest, some acc =>
      if c = '}' then
        ((args.lookup (String.mk acc.reverse)).getD "")
          ++ substPlaceholders args rest none
      else substPlaceholders args rest (some (c :: acc))

/-- Embedding of `cache_service/utils.py` `format_cache_key`: `pattern.format(**kwargs)`.
Python's `str.format` raises `KeyError` when a placeholder's name is not
among the keyword arguments; extra arguments are ignored. -/
def formatCacheKey (pattern : String) (args : List (String × String)) :
    Except String String :=
  let names := scanPlaceholders pattern.data none
  match names.find? (fun n => (args.lookup n).isNone) with
  | some missing => .error ("KeyError: " ++ missing)
  | none => .ok (substPlaceholders args pattern.data none)

/-- Stand-in for `hash_token_secure` (SHA-256 hex digest — an opaque one-way
hash per the spec; modelled as an injective tagging). -/
def hashTokenSecure (token : String) : String :=
  "sha256(" ++ token ++ ")"

/-- Embedding of `serialize_data` (JSON serialization, modelled as identity on the payload
string). -/
def serializeData (payload : String) : String := payload

/-- Embedding of `decode_redis_value` (UTF-8 decode of Redis bytes, identity here). -/
def decodeRedisValue (v : String) : String := v

/-- Embedding of `parse_cached_data`: `None`/falsy input gives `None`; JSON decoding
errors are swallowed (not representable for our identity serialization). -/
def parseCachedData : Option String → Option String
  | none => none
  | some s => if s = "" then none else some s

/-- Python truthiness of a fetched value (`if token: ...`): `None` and the
empty string are falsy. -/
def pyStrOpt : Option String → Option String
  | none => none
  | some s => if s = "" then none else some s

/-- Embedding of `extract_token_type_from_pattern`: drop `*`s, strip trailing `:`. -/
def extractTokenTypeFromPattern (pattern : String) : String :=
  (pattern.replace "*" "").dropRightWhile (· = ':')

/-! ### CacheService operations (cache_service/service.py)

Each operation has type `Redis → α × Redis`: externally it never throws; the
fallback chosen at the `_safe_redis_operation` call site is the value
returned when the backend raises. -/

/-- Embedding of `store_refresh_token`: key from `REFRESH_TOKEN_KEY`, `uuid4` as session id
when none is supplied (`freshSessionId`), `SET ... EX` with the configured
refresh lifetime; fallback `False`. -/
def storeRefreshToken (userId token : String) (sessionId : Option String)
    (freshSessionId : String) (ttlSeconds : Int) : Redis → Bool × Redis :=
  safeRedisOp false (fun s => do
    let actual := sessionId.getD freshSessionId
    let key ← formatCacheKey REFRESH_TOKEN_KEY
      [("user_id", userId), ("session_id", actual)]
    let (_, s₁) ← s.setex key token ttlSeconds
    .ok (true, s₁))

/-- The scan loop of `get_refresh_token` in wildcard mode: first truthy value
among the scanned keys. -/
def firstTokenIn : List String → Redis → Except String (Option String × Redis)
  | [], s => .ok (none, s)
  | k :: rest, s => do
      let (tok, s₁) ← s.get k
      match pyStrOpt tok with
      | some t => .ok (some (decodeRedisValue t), s₁)
      | none => firstTokenIn rest s₁

/-- Embedding of `get_refresh_token`: direct lookup when a session id is given, otherwise a
scan over the user's sessions (documented as non-deterministic); fallback
`None`. -/
def getRefreshToken (userId : String) (sessionId : Option String) :
    Redis → Option String × Redis :=
  safeRedisOp none (fun s => do
    match sessionId with
    | some sid => do
        let key ← formatCacheKey REFRESH_TOKEN_KEY
          [("user_id", userId), ("session_id", sid)]
        let (tok, s₁) ← s.get key
        .ok ((pyStrOpt tok).map decodeRedisValue, s₁)
    | none => do
        let pattern ← formatCacheKey REFRESH_TOKEN_KEY
          [("user_id", userId), ("session_id", "*")]
        let (ks, s₁) ← s.scanKeys pattern
        firstTokenIn ks s₁)

/-- Embedding of `revoke_refresh_token`: delete one session's key, or scan-and-delete all
of the user's session keys; returns `result > 0`; fallback `False`. -/
def revokeRefreshToken (userId : String) (sessionId : Option String) :
    Redis → Bool × Redis :=
  safeRedisOp false (fun s => do
    match sessionId with
    | some sid => do
        let key ← formatCacheKey REFRESH_TOKEN_KEY
          [("user_id", userId), ("session_id", sid)]
        let (n, s₁) ← s.delMany [key]
        .ok (decide (n > 0), s₁)
    | none => do
        let pattern ← formatCacheKey REFRESH_TOKEN_KEY
          [("user_id", userId), ("session_id", "*")]
        let (ks, s₁) ← s.scanKeys pattern
        if ks.isEmpty then .ok (decide ((0 : Nat) > 0), s₁)
        else do
          let (n, s₂) ← s₁.delMany ks
          .ok (decide (n > 0), s₂))

/-- Embedding of `revoke_all_user_refresh_tokens`: scan-and-delete, returning the count;
fallback `0`. -/
def revokeAllUserRefreshTokens (userId : String) : Redis → Nat × Redis :=
  safeRedisOp 0 (fun s => do
    let pattern ← formatCacheKey REFRESH_TOKEN_KEY
      [("user_id", userId), ("session_id", "*")]
    let (ks, s₁) ← s.scanKeys pattern
    if ks.isEmpty then .ok (0, s₁)
    else do
      let (n, s₂) ← s₁.delMany ks
      .ok (n, s₂))

/-- Embedding of `store_oauth_state`: NOTE the source formats `OAUTH_STATE_KEY`, whose
placeholder is named `state_hash`, with the keyword `state=...` — exactly as
written here; fallback `False`. -/
def storeOauthState (state provider redirectUri createdAt : String) :
    Redis → Bool × Redis :=
  safeRedisOp false (fun s => do
    let key ← formatCacheKey OAUTH_STATE_KEY [("state", state)]
    let payload := serializeData (provider ++ "|" ++ redirectUri ++ "|" ++ createdAt)
    let (_, s₁) ← s.setex key payload OAUTH_STATE_TTL
    .ok (true, s₁))

/-- Embedding of `get_oauth_state`: `GETDEL` (one-time use) under the key formatted from
`OAUTH_STATE_KEY` with keyword `state=...`; fallback `None`. -/
def getOauthState (state : String) : Redis → Option String × Redis :=
  safeRedisOp none (fun s => do
    let key ← formatCacheKey OAUTH_STATE_KEY [("state", state)]
    let (v, s₁) ← s.getdel key
    match pyStrOpt v with
    | some d => .ok (some (decodeRedisValue d), s₁)
    | none => .ok (none, s₁))

/-- Embedding of `store_password_reset_token`: hashed token into `PASSWORD_RESET_KEY`
(placeholder `token_hash`, keyword `token=...` as in the source); fallback
`False`. -/
def storePasswordResetToken (token userId : String) : Redis → Bool × Redis :=
  safeRedisOp false (fun s => do
    let hashed := hashTokenSecure token
    let key ← formatCacheKey PASSWORD_RESET_KEY [("token", hashed)]
    let (_, s₁) ← s.setex key (serializeData userId) PASSWORD_RESET_TTL
    .ok (true, s₁))

/-- Embedding of `get_password_reset_token`: `GETDEL` (one-time use), returns the stored
`user_id`; fallback `None`. -/
def getPasswordResetToken (token : String) : Redis → Option String × Redis :=
  safeRedisOp none (fun s => do
    let hashed := hashTokenSecure token
    let key ← formatCacheKey PASSWORD_RESET_KEY [("token", hashed)]
    let (v, s₁) ← s.getdel key
    match pyStrOpt v with
    | some d => .ok (some (decodeRedisValue d), s₁)
    | none => .ok (none, s₁))

/-- Embedding of `revoke_password_reset_token`: delete, `result > 0`; fallback `False`. -/
def revokePasswordResetToken (token : String) : Redis → Bool × Redis :=
  safeRedisOp false (fun s => do
    let hashed := hashTokenSecure token
    let key ← formatCacheKey PASSWORD_RESET_KEY [("token", hashed)]
    let (n, s₁) ← s.delMany [key]
    .ok (decide (n > 0), s₁))

/-- Embedding of `store_email_verification_token` (placeholder `token_hash`, keyword
`token=...` as in the source); fallback `False`. -/
def storeEmailVerificationToken (token userId : String) : Redis → Bool × Redis :=
  safeRedisOp false (fun s => do
    let hashed := hashTokenSecure token
    let key ← formatCacheKey EMAIL_VERIFICATION_KEY [("token", hashed)]
    let (_, s₁) ← s.setex key (serializeData userId) EMAIL_VERIFICATION_TTL
    .ok (true, s₁))

/-- Embedding of `get_email_verification_token`: `GETDEL` (one-time use); fallback `None`. -/
def getEmailVerificationToken (token : String) : Redis → Option String × Redis :=
  safeRedisOp none (fun s => do
    let hashed := hashTokenSecure token
    let key ← formatCacheKey EMAIL_VERIFICATION_KEY [("token", hashed)]
    let (v, s₁) ← s.getdel key
    match pyStrOpt v with
    | some d => .ok (some (decodeRedisValue d), s₁)
    | none => .ok (none, s₁))

/-- Embedding of `blacklist_token_jti`: `SET jti_denylist:{jti} "revoked" EX ttl`;
fallback `False`. -/
def blacklistTokenJti (jti : String) (ttlSeconds : Int) : Redis → Bool × Redis :=
  safeRedisOp false (fun s => do
    let key ← formatCacheKey JTI_DENYLIST_KEY [("jti", jti)]
    let (_, s₁) ← s.setex key "revoked" ttlSeconds
    .ok (true, s₁))

/-- Embedding of `is_token_blacklisted`: `GET` then `result is not None`; fallback `False`
(so an unreachable backend reports "not blacklisted"). -/
def isTokenBlacklisted (jti : String) : Redis → Bool × Redis :=
  safeRedisOp false (fun s => do
    let key ← formatCacheKey JTI_DENYLIST_KEY [("jti", jti)]
    let (v, s₁) ← s.get key
    .ok (v.isSome, s₁))

/-- Embedding of `cache_user_memberships`: store the serialized membership under
`user_memberships:{organization_id}:{user_id}`; fallback `False`. -/
def cacheUserMembershipsOp (userId organizationId payload : String)
    (ttl : Int) : Redis → Bool × Redis :=
  safeRedisOp false (fun s => do
    let key ← formatCacheKey USER_MEMBERSHIPS_KEY
      [("organization_id", organizationId), ("user_id", userId)]
    let (_, s₁) ← s.setex key (serializeData payload) ttl
    .ok (true, s₁))

/-- Embedding of `get_cached_user_membership`: `GET` + `parse_cached_data`; fallback
`None`. -/
def getCachedUserMembership (userId organizationId : String) :
    Redis → Option String × Redis :=
  safeRedisOp none (fun s => do
    let key ← formatCacheKey USER_MEMBERSHIPS_KEY
      [("organization_id", organizationId), ("user_id", userId)]
    let (v, s₁) ← s.get key
    .ok (parseCachedData v, s₁))

/-- The per-organization lookup loop of `get_cached_user_memberships`. -/
def collectCachedMemberships (userId : String) :
    List String → Redis → Except String (List String × Redis)
  | [], s => .ok ([], s)
  | orgId :: rest, s => do
      let key ← formatCacheKey USER_MEMBERSHIPS_KEY
        [("organization_id", orgId), ("user_id", userId)]
      let (v, s₁) ← s.get key
      let (tail, s₂) ← collectCachedMemberships userId rest s₁
      match parseCachedData v with
      | some d => .ok (d :: tail, s₂)
      | none => .ok (tail, s₂)

/-- Embedding of `get_cached_user_memberships`: without organization ids it returns `[]`
immediately (cannot enumerate under the org-scoped schema); with ids it
collects the cached entries; fallback `[]`. -/
def getCachedUserMembershipsOp (userId : String)
    (organizationIds : Option (List String)) : Redis → List String × Redis :=
  match organizationIds with
  | none => fun s => ([], s)
  | some ids => safeRedisOp [] (collectCachedMemberships userId ids)

/-- Embedding of `invalidate_user_membership` (single pair): delete the key, return
`result > 0`; fallback `False`. -/
def invalidateUserMembership (userId organizationId : String) :
    Redis → Bool × Redis :=
  safeRedisOp false (fun s => do
    let key ← formatCacheKey USER_MEMBERSHIPS_KEY
      [("organization_id", organizationId), ("user_id", userId)]
    let (n, s₁) ← s.delMany [key]
    .ok (decide (n > 0), s₁))

/-- Key construction loop of `invalidate_user_memberships` when organization
ids are supplied. -/
def buildMembershipKeys (userId : String) :
    List String → Except String (List String)
  | [] => .ok []
  | orgId :: rest => do
      let k ← formatCacheKey USER_MEMBERSHIPS_KEY
        [("organization_id", orgId), ("user_id", userId)]
      let ks ← buildMembershipKeys userId rest
      .ok (k :: ks)

/-- Embedding of `invalidate_user_memberships` (bulk): targeted deletes when organization
ids are known, otherwise a scan by user pattern; returns the deleted count;
fallback `0`. -/
def invalidateUserMembershipsBulk (userId : String)
    (organizationIds : Option (List String)) : Redis → Nat × Redis :=
  safeRedisOp 0 (fun s => do
    let (keys, s₁) ←
      match organizationIds with
      | some ids => do
          let ks ← buildMembershipKeys userId ids
          (.ok (ks, s) : Except String (List String × Redis))
      | none => do
          let pattern ← formatCacheKey USER_MEMBERSHIPS_PATTERN_BY_USER
            [("user_id", userId)]
          s.scanKeys pattern
    if keys.isEmpty then .ok (0, s₁)
    else do
      let (n, s₂) ← s₁.delMany keys
      .ok (n, s₂))

/-- Embedding of `invalidate_organization_members_cache` (bulk): scan by organization
pattern, delete; fallback `0`. -/
def invalidateOrganizationMembersCache (organizationId : String) :
    Redis → Nat × Redis :=
  safeRedisOp 0 (fun s => do
    let pattern ← formatCacheKey USER_MEMBERSHIPS_PATTERN_BY_ORG
      [("organization_id", organizationId)]
    let (ks, s₁) ← s.scanKeys pattern
    if ks.isEmpty then .ok (0, s₁)
    else do
      let (n, s₂) ← s₁.delMany ks
      .ok (n, s₂))

/-- Embedding of `invalidate_dashboard_stats`: delete the key; the wrapper has no explicit
fallback, so a failure yields `None` (returned value is unused upstream). -/
def invalidateDashboardStats (organizationId : String) :
    Redis → Option Nat × Redis :=
  safeRedisOp none (fun s => do
    let key ← formatCacheKey DASHBOARD_STATS_KEY
      [("organization_id", organizationId)]
    let (n, s₁) ← s.delMany [key]
    .ok (some n, s₁))

/-- Embedding of `cache_dashboard_stats`: store with the configured TTL; fallback `False`. -/
def cacheDashboardStats (organizationId payload : String) (ttl : Int) :
    Redis → Bool × Redis :=
  safeRedisOp false (fun s => do
    let key ← formatCacheKey DASHBOARD_STATS_KEY
      [("organization_id", organizationId)]
    let (_, s₁) ← s.setex key (serializeData payload) ttl
    .ok (true, s₁))

/-- Embedding of `get_cached_dashboard_stats`: `GET` + `parse_cached_data`; fallback
`None`. -/
def getCachedDashboardStats (organizationId : String) :
    Redis → Option String × Redis :=
  safeRedisOp none (fun s => do
    let key ← formatCacheKey DASHBOARD_STATS_KEY
      [("organization_id", organizationId)]
    let (v, s₁) ← s.get key
    .ok (parseCachedData v, s₁))

/-- Inner key loop of `cleanup_expired_tokens`: delete keys whose ttl is `-1`
(exists but no expiry), counting them. -/
def cleanupKeys : List String → Redis → Nat → Except String (Nat × Redis)
  | [], s, acc => .ok (acc, s)
  | k :: rest, s, acc => do
      let (t, s₁) ← s.ttlOf k
      if t = -1 then do
        let (_, s₂) ← s₁.delMany [k]
        cleanupKeys rest s₂ (acc + 1)
      else cleanupKeys rest s₁ acc

/-- Per-pattern pass of `cleanup_expired_tokens`. -/
def cleanupPatternPass (pattern : String) (s : Redis) :
    Except String ((String × Nat) × Redis) := do
  let tokenType := extractTokenTypeFromPattern pattern
  let (ks, s₁) ← s.scanKeys pattern
  let (cnt, s₂) ← cleanupKeys ks s₁ 0
  .ok ((tokenType, cnt), s₂)

/-- All patterns of `TOKEN_CLEANUP_PATTERNS`, accumulating stats. -/
def cleanupAllPasses : List String → Redis → Except String (List (String × Nat) × Redis)
  | [], s => .ok ([], s)
  | p :: rest, s => do
      let (st, s₁) ← cleanupPatternPass p s
      let (sts, s₂) ← cleanupAllPasses rest s₁
      .ok (st :: sts, s₂)

/-- Embedding of `cleanup_expired_tokens`: stats per token type; fallback `{}` (empty
stats). -/
def cleanupExpiredTokens : Redis → List (String × Nat) × Redis :=
  safeRedisOp [] (cleanupAllPasses TOKEN_CLEANUP_PATTERNS)

/-! ### Concrete states used to evaluate the embedded operations -/

/-- An empty, reachable Redis backend. -/
def redisEmpty : Redis := ⟨[], false⟩

/-- A pending single-use invite, expiring at instant 1000, no email
restriction. -/
def sampleInvite : Invite :=
  { id := "inv1", code := "CODE", organizationId := "org1", invitedBy := "boss"
    targetRole := "editor", email := none, status := .pending
    expiresAt := 1000, usedBy := none, usedAt := none, revokedAt := none
    revokedBy := none, maxUses := 1, currentUses := 0
    createdAt := 0, updatedAt := 0 }

/-- A world in which user `u1` redeems `sampleInvite` with no interference. -/
def ctxSingleUse : AcceptCtx :=
  { inviteAtRead := some sampleInvite, inviteAtUpdate := some sampleInvite
    users := [("u1", "a@b.co")], orgs := ["org1"], memberships := []
    nowRead := 0, nowUpdate := 0 }

/-- Fixture: `u1` already holds a (viewer) membership in `org1`. -/
def existingMember : Membership := ⟨"u1", "org1", .viewer, .active, none⟩

/-- Same world as `ctxSingleUse` but `u1` is already a member. -/
def ctxExistingMember : AcceptCtx :=
  { ctxSingleUse with memberships := [existingMember] }

/-- Fixture: `sampleInvite` whose expiry instant equals the current instant. -/
def boundaryInvite : Invite := { sampleInvite with expiresAt := 0 }

/-- A world in which the redeemed invite expires exactly "now": the read-time
validity check passes (`exp < now` is false) but the conditional update's
filter (`expires_at > now`) does not match. -/
def ctxBoundary : AcceptCtx :=
  { ctxSingleUse with
      inviteAtRead := some boundaryInvite
      inviteAtUpdate := some boundaryInvite }

/-- Fixture: `sampleInvite` after a concurrent revocation. -/
def revokedAtUpdate : Invite := { sampleInvite with status := .revoked }

/-- A world in which the invite is revoked between the first read and the
conditional update. -/
def ctxRevokedRace : AcceptCtx :=
  { ctxSingleUse with inviteAtUpdate := some revokedAtUpdate }

/-- Fixture: `sampleInvite` restricted to a specific email. -/
def emailInvite : Invite :=
  { sampleInvite with email := some "Invited@Example.com" }

/-- A world in which `u1`'s email does not match the invite's restriction. -/
def ctxEmailMismatch : AcceptCtx :=
  { ctxSingleUse with
      inviteAtRead := some emailInvite
      inviteAtUpdate := some emailInvite
      users := [("u1", "other@example.com")] }

/-- A Redis state holding an OAuth-state payload under the key the service's
own unit test expects (`oauth_state:{state}` with the state substituted). -/
def oauthStoreOk : Redis :=
  ⟨[⟨"oauth_state:test_state", "google|http://cb|t0", 600⟩], false⟩

/-- A Redis state holding a password-reset payload under the hashed-token key
the storage docstring intends. -/
def pwdStoreOk : Redis :=
  ⟨[⟨"password_reset:sha256(tok)", "user1", 3600⟩], false⟩

/-- A Redis state holding an email-verification payload under the
hashed-token key the storage docstring intends. -/
def evStoreOk : Redis :=
  ⟨[⟨"email_verification:sha256(tok)", "user1", 86400⟩], false⟩

/-- An unreachable Redis backend that still (physically) holds a denylist
entry for jti `jti-1`. -/
def redisDown : Redis :=
  ⟨[⟨"jti_denylist:jti-1", "revoked", 100⟩], true⟩

/-- Sample invite-creation input: single-use editor invite for `org1`. -/
def sampleCreate : InviteCreate :=
  { organizationId := "org1", targetRole := "editor", email := none
    expiresAt := none, maxUses := 1 }

/-! ## Theorems -/

/-- A valid creation payload has a positive `max_uses`
(`validate_invite_data` rejects non-positive values). -/
theorem validateInviteData_maxUses_pos (d : InviteCreate) (now : Int)
    (h : validateInviteData d now = []) : 0 < d.maxUses := by
  by_contra hle
  push_neg at hle
  simp [validateInviteData, hle] at h

/-- Each single-document operation preserves `current_uses ≤ max_uses`: the
conditional accept increments only under `current_uses < max_uses`, and
revoke / cleanup do not touch the counters. -/
theorem applyInviteOp_preserves_quota (inv : Invite) (op : InviteOp)
    (h : inv.currentUses ≤ inv.maxUses) :
    (applyInviteOp inv op).currentUses ≤ (applyInviteOp inv op).maxUses := by
  cases op with
  | accept u now =>
      simp only [applyInviteOp, acceptUpdateStep]
      by_cases hm : atomicAcceptMatches inv now
      · simp only [hm, if_pos, applyAtomicAcceptUpdate]
        have : inv.currentUses < inv.maxUses := by
          have := hm
          simp only [atomicAcceptMatches, Bool.and_eq_true, decide_eq_true_eq] at this
          exact this.2
        omega
      · simp only [hm, if_neg, Bool.false_eq_true, not_false_eq_true]
        exact h
  | revoke rb now =>
      simpa only [applyInviteOp, applyRevokeUpdate] using h
  | cleanup now =>
      simp only [applyInviteOp, applyCleanupExpired]
      by_cases hc : (inv.status == InviteStatus.pending && decide (inv.expiresAt < now)) = true
      · simpa only [hc, if_pos] using h
      · simpa only [hc, if_neg, Bool.false_eq_true, not_false_eq_true] using h

/-- The quota invariant is preserved by every sequence of operations. -/
theorem applyInviteOps_preserves_quota (ops : List InviteOp) (inv : Invite)
    (h : inv.currentUses ≤ inv.maxUses) :
    (applyInviteOps ops inv).currentUses ≤ (applyInviteOps ops inv).maxUses := by
  induction ops generalizing inv with
  | nil => exact h
  | cons op rest ih =>
      exact ih (applyInviteOp inv op) (applyInviteOp_preserves_quota inv op h)

/-- C1: the accept operation's conditional update increments `current_uses`
by exactly 1, and does so precisely when `status = pending`,
`expires_at > now` and `current_uses < max_uses` (a single conditional
update, unchanged state otherwise); a freshly created valid invite starts at
`current_uses = 0 < max_uses`; and `current_uses ≤ max_uses` holds after any
sequence of accept / revoke / cleanup operations, starting from any state
satisfying it and in particular from a fresh `create_invite` result. -/
theorem accept_conditional_increment_and_quota_invariant
    (u invitedBy code id : String) (now tc : Int) (inv : Invite)
    (d : InviteCreate) (ops : List InviteOp)
    (hd : validateInviteData d tc = [])
    (hinv : inv.currentUses ≤ inv.maxUses) :
    ((acceptUpdateStep u now inv).2 = 1 ↔
        (inv.status = .pending ∧ now < inv.expiresAt
          ∧ inv.currentUses < inv.maxUses))
    ∧ ((acceptUpdateStep u now inv).2 = 1 →
        ((acceptUpdateStep u now inv).1.currentUses = inv.currentUses + 1
          ∧ (acceptUpdateStep u now inv).1.maxUses = inv.maxUses))
    ∧ ((acceptUpdateStep u now inv).2 = 0 → (acceptUpdateStep u now inv).1 = inv)
    ∧ (createInviteDict d invitedBy tc code id).currentUses = 0
    ∧ 0 < (createInviteDict d invitedBy tc code id).maxUses
    ∧ (applyInviteOps ops inv).currentUses ≤ (applyInviteOps ops inv).maxUses
    ∧ (applyInviteOps ops (createInviteDict d invitedBy tc code id)).currentUses
        ≤ (applyInviteOps ops (createInviteDict d invitedBy tc code id)).maxUses := by
  have hpos : 0 < d.maxUses := validateInviteData_maxUses_pos d tc hd
  have hmatch : atomicAcceptMatches inv now = true ↔
      (inv.status = .pending ∧ now < inv.expiresAt
        ∧ inv.currentUses < inv.maxUses) := by
    simp [atomicAcceptMatches, and_assoc]
  refine ⟨?_, ?_, ?_, rfl, hpos, ?_, ?_⟩
  · constructor
    · intro h1
      apply hmatch.mp
      cases hv : atomicAcceptMatches inv now
      · simp [acceptUpdateStep, hv] at h1
      · rfl
    · intro hc
      have := hmatch.mpr hc
      simp [acceptUpdateStep, this]
  · intro h1
    have hm : atomicAcceptMatches inv now = true := by
      cases hv : atomicAcceptMatches inv now
      · simp [acceptUpdateStep, hv] at h1
      · rfl
    simp [acceptUpdateStep, hm, applyAtomicAcceptUpdate]
  · intro h0
    have hm : atomicAcceptMatches inv now = false := by
      cases hv : atomicAcceptMatches inv now
      · rfl
      · simp [acceptUpdateStep, hv] at h0
    simp [acceptUpdateStep, hm]
  · exact applyInviteOps_preserves_quota ops inv hinv
  · exact applyInviteOps_preserves_quota ops _ (by
      simp only [createInviteDict]
      omega)

/-- C1 witness: concrete run — a fresh single-use invite, two accept
attempts, a revoke and a cleanup keep `current_uses ≤ max_uses`. -/
theorem accept_conditional_increment_and_quota_invariant_witness :
    (applyInviteOps [.accept "u1" 0, .accept "u2" 1, .revoke "boss" 2, .cleanup 3]
        sampleInvite).currentUses
      ≤ (applyInviteOps [.accept "u1" 0, .accept "u2" 1, .revoke "boss" 2, .cleanup 3]
        sampleInvite).maxUses :=
  (accept_conditional_increment_and_quota_invariant "u1" "boss" "CODE" "inv1"
    0 0 sampleInvite sampleCreate
    [.accept "u1" 0, .accept "u2" 1, .revoke "boss" 2, .cleanup 3]
    (by decide) (by decide)).2.2.2.2.2.1

/-- C2 (code bug): a successful `accept_invite` of a `max_uses = 1` invite
performs the conditional update (`modified_count = 1`) and succeeds, yet the
resulting invite has `current_uses = 1` with status still `pending`, because
`create_atomic_accept_update` never writes `status`; the helper
`create_atomic_accept_update_pipeline`, which does flip the status to
`accepted` exactly on full consumption, is never called by the service. -/
theorem accept_single_use_leaves_status_pending :
    (acceptInvite ctxSingleUse "u1").modifiedCount = 1
    ∧ (acceptInvite ctxSingleUse "u1").outcome =
        .ok { sampleInvite with
                currentUses := 1, usedBy := some "u1", usedAt := some 0 }
    ∧ (acceptInvite ctxSingleUse "u1").inviteAfter =
        some { sampleInvite with
                currentUses := 1, usedBy := some "u1", usedAt := some 0 }
    ∧ ((acceptInvite ctxSingleUse "u1").inviteAfter.map Invite.status)
        = some .pending
    ∧ (applyAtomicAcceptPipeline "u1" 0 sampleInvite).status = .accepted
    ∧ (applyAtomicAcceptPipeline "u1" 0 sampleInvite).currentUses = 1 := by
  decide

/-- C3 (code bug): `accept_invite` creates the membership through
`create_membership` with the default `allow_existing=False`, so a redeemer
who already holds a membership in the invite's organization gets a
`DuplicateMembershipError` instead of an idempotent success; no second
membership is created, and the invite's `current_uses` was already
incremented by the time the error is raised.  The `allow_existing=True` path
(documented in `create_membership` as intended for invite acceptance) would
have returned the existing membership. -/
theorem accept_existing_member_raises_duplicate :
    (acceptInvite ctxExistingMember "u1").outcome =
        .error (.membership (.duplicateMembership
          "User is already a member of this organization"))
    ∧ (acceptInvite ctxExistingMember "u1").membershipsAfter = [existingMember]
    ∧ (acceptInvite ctxExistingMember "u1").modifiedCount = 1
    ∧ ((acceptInvite ctxExistingMember "u1").inviteAfter.map Invite.currentUses)
        = some 1
    ∧ (createMembership ["u1"] ["org1"] [existingMember]
        ⟨"u1", "org1", .editor, .active, some "boss"⟩ true false).outcome
        = .ok existingMember := by
  decide

/-- C4 counterexample: an invite that is still pending and under quota but
whose `expires_at` equals the update-time instant passes the read-time
validity check, is rejected by the conditional update's `expires_at > now`
clause (`modified_count = 0`), and the re-read branch then raises the generic
"Invite is not usable" `InviteNotFoundError` — not the revoked, expired or
quota error — refuting "never a generic failure". -/
theorem zero_modified_generic_error_exists :
    atomicAcceptMatches boundaryInvite 0 = false
    ∧ (acceptInvite ctxBoundary "u1").modifiedCount = 0
    ∧ boundaryInvite.status = .pending
    ∧ boundaryInvite.currentUses < boundaryInvite.maxUses
    ∧ (acceptInvite ctxBoundary "u1").outcome =
        .error (.notFound "Invite is not usable") := by
  decide

/-- C4 (amended): when the conditional update modifies zero documents,
`accept_invite` re-reads the invite and raises the typed error matching its
current state — revoked status the revoked error, expired status the expired
error, accepted status and a still-pending invite with
`current_uses ≥ max_uses` the quota error — leaving the invite and the
membership store unchanged; the one residual case, a still-pending
under-quota invite (its expiry instant no longer in the future), receives
the generic not-usable error. -/
theorem zero_modified_reread_typed_errors
    (ctx : AcceptCtx) (u : String) (inv cur : Invite)
    (hr : ctx.inviteAtRead = some inv)
    (hv : (validateInviteUsability inv ctx.nowRead).isValid = true)
    (he : pyTruthy inv.email = false)
    (hu : ctx.inviteAtUpdate = some cur)
    (hm : atomicAcceptMatches cur ctx.nowUpdate = false) :
    (cur.status = .revoked →
        (acceptInvite ctx u).outcome =
          .error (.revoked "Invite has been revoked"))
    ∧ (cur.status = .expired →
        (acceptInvite ctx u).outcome =
          .error (.expired "Invite has expired"))
    ∧ (cur.status = .accepted →
        (acceptInvite ctx u).outcome =
          .error (.maxUsesReached "Invite has already been accepted"))
    ∧ (cur.status = .pending → cur.currentUses ≥ cur.maxUses →
        (acceptInvite ctx u).outcome =
          .error (.maxUsesReached "Invite has reached maximum uses"))
    ∧ (cur.status = .pending → cur.currentUses < cur.maxUses →
        (acceptInvite ctx u).outcome =
          .error (.notFound "Invite is not usable"))
    ∧ (acceptInvite ctx u).inviteAfter = some cur
    ∧ (acceptInvite ctx u).membershipsAfter = ctx.memberships
    ∧ (acceptInvite ctx u).modifiedCount = 0 := by
  have hacc : acceptInvite ctx u = zeroModifiedResult ctx cur := by
    simp [acceptInvite, hr, hv, he, acceptAtomicPhase, hu, hm]
  rw [hacc]
  refine ⟨?_, ?_, ?_, ?_, ?_, ?_, ?_, ?_⟩
  · intro hst; simp [zeroModifiedResult, hst]
  · intro hst; simp [zeroModifiedResult, hst]
  · intro hst; simp [zeroModifiedResult, hst]
  · intro hst hq; simp [zeroModifiedResult, hst, hq]
  · intro hst hlt
    simp [zeroModifiedResult, hst, show ¬(cur.currentUses ≥ cur.maxUses) by omega]
  · simp [zeroModifiedResult]
  · simp [zeroModifiedResult]
  · simp [zeroModifiedResult]

/-- C4 witness: an invite revoked between the first read and the conditional
update produces the specific revoked error. -/
theorem zero_modified_reread_typed_errors_witness :
    (acceptInvite ctxRevokedRace "u1").outcome =
      .error (.revoked "Invite has been revoked") :=
  (zero_modified_reread_typed_errors ctxRevokedRace "u1" sampleInvite
    revokedAtUpdate rfl (by decide) (by decide) rfl (by decide)).1 rfl

/-- Without an attached cache service, `create_membership` performs no cache
invalidation (`finally` block guard `if inserted and self.cache_service`). -/
theorem createMembership_no_cache_no_invalidation (users orgs : List String)
    (ms : List Membership) (d : MembershipCreate) (ae : Bool) :
    (createMembership users orgs ms d ae false).invalidations = [] := by
  unfold createMembership
  split
  · rfl
  · split
    · rfl
    · split
      · split <;> rfl
      · simp

/-- The atomic phase of `accept_invite` never invalidates the permission
cache: its `MembershipService` is constructed without a cache service. -/
theorem acceptAtomicPhase_no_invalidations (ctx : AcceptCtx) (u : String)
    (inv : Invite) :
    (acceptAtomicPhase ctx u inv).invalidations = [] := by
  unfold acceptAtomicPhase
  split
  · rfl
  · split
    · split
      · rfl
      · rename_i cur hmatch role hrole
        cases hmo : (createMembership (ctx.users.map (·.1)) ctx.orgs
            ctx.memberships
            ⟨u, inv.organizationId, role, .active, some inv.invitedBy⟩
            false false).outcome <;>
          simp [hmo, createMembership_no_cache_no_invalidation]
    · simp [zeroModifiedResult]

/-- C5 counterexample: a fully successful `accept_invite` run (membership
created) that performs no Permission Cache invalidation at all. -/
theorem accept_success_without_invalidation :
    (acceptInvite ctxSingleUse "u1").outcome =
        .ok { sampleInvite with
                currentUses := 1, usedBy := some "u1", usedAt := some 0 }
    ∧ (acceptInvite ctxSingleUse "u1").membershipsAfter =
        [⟨"u1", "org1", .editor, .active, some "boss"⟩]
    ∧ (acceptInvite ctxSingleUse "u1").invalidations = [] := by
  decide

/-- C5 (amended): `accept_invite` never invalidates the Permission Cache —
it builds its `MembershipService` without a cache service, and
`create_membership` invalidates the `(user_id, organization_id)` entry after
an insert only when a cache service is attached (as it is for the
membership-service wiring used by the routers). -/
theorem accept_never_invalidates_cache
    (ctx : AcceptCtx) (u : String)
    (users orgs : List String) (ms : List Membership) (d : MembershipCreate)
    (hu : users.contains d.userId = true)
    (ho : orgs.contains d.organizationId = true)
    (hnone : findMembership ms d.userId d.organizationId = none) :
    (acceptInvite ctx u).invalidations = []
    ∧ (createMembership users orgs ms d false false).invalidations = []
    ∧ (createMembership users orgs ms d false true).invalidations
        = [(d.userId, d.organizationId)]
    ∧ (createMembership users orgs ms d false true).outcome =
        .ok ⟨d.userId, d.organizationId, d.role, d.status, d.invitedBy⟩ := by
  have hu' : d.userId ∈ users := by simpa using hu
  have ho' : d.organizationId ∈ orgs := by simpa using ho
  refine ⟨?_, createMembership_no_cache_no_invalidation users orgs ms d false, ?_, ?_⟩
  · unfold acceptInvite
    split
    · rfl
    · split
      · rfl
      · split
        · split
          · rfl
          · split
            · rfl
            · exact acceptAtomicPhase_no_invalidations _ _ _
        · exact acceptAtomicPhase_no_invalidations _ _ _
  · simp [createMembership, hu', ho', hnone]
  · simp [createMembership, hu', ho', hnone]

/-- C5 witness: concrete accept run with no invalidation, while an insert
through a cache-attached membership service invalidates the pair. -/
theorem accept_never_invalidates_cache_witness :
    (acceptInvite ctxSingleUse "u1").invalidations = []
    ∧ (createMembership ["u1"] ["org1"] []
        ⟨"u1", "org1", .editor, .active, none⟩ false true).invalidations
        = [("u1", "org1")] :=
  ⟨(accept_never_invalidates_cache ctxSingleUse "u1" ["u1"] ["org1"] []
      ⟨"u1", "org1", .editor, .active, none⟩ (by decide) (by decide) (by decide)).1,
   (accept_never_invalidates_cache ctxSingleUse "u1" ["u1"] ["org1"] []
      ⟨"u1", "org1", .editor, .active, none⟩ (by decide) (by decide) (by decide)).2.2.1⟩

/-- C8: `has_permission(user, organization, required_role)` is true exactly
when a membership for the pair exists, its status is `active`, and the
membership role's level is at least the required role's level under the
hierarchy `viewer = 1 < editor = 2 < admin = 3` (any non-active status
denies regardless of role, since no witness membership can then satisfy the
right-hand side). -/
theorem has_permission_iff_active_sufficient_role
    (db : List Membership) (u o : String) (req : MembershipRole) :
    (hasPermission db u o req = true ↔
      ∃ m, findMembership db u o = some m ∧ m.status = .active
        ∧ roleLevel m.role ≥ roleLevel req)
    ∧ roleLevel .viewer = 1 ∧ roleLevel .editor = 2 ∧ roleLevel .admin = 3 := by
  refine ⟨?_, rfl, rfl, rfl⟩
  constructor
  · intro h
    unfold hasPermission checkUserRole at h
    cases hf : findMembership db u o with
    | none => simp [hf] at h
    | some m =>
        simp only [hf] at h
        by_cases hs : m.status = .active
        · refine ⟨m, rfl, hs, ?_⟩
          simp only [hs, beq_self_eq_true, if_pos, hasSufficientRole,
            decide_eq_true_eq] at h
          exact h
        · simp [hs] at h
  · rintro ⟨m, hf, hs, hge⟩
    unfold hasPermission checkUserRole
    simp [hf, hs, hasSufficientRole, hge]

/-- C9: if the invite names an email, acceptance requires a case-insensitive
match between that email and the redeeming user's email — a mismatch raises
the email-mismatch error before the conditional update, leaving the invite
store and memberships untouched — while an invite with no (truthy) email
restriction passes the gate for any user email and proceeds to the atomic
phase. -/
theorem accept_email_restriction
    (ctx : AcceptCtx) (u : String) (inv : Invite) (e ue : String)
    (hr : ctx.inviteAtRead = some inv)
    (hv : (validateInviteUsability inv ctx.nowRead).isValid = true) :
    (pyTruthy inv.email = true → ctx.users.lookup u = some ue →
        checkEmailMatch inv ue = false →
        ((acceptInvite ctx u).outcome =
            .error (.emailMismatch "This invite is for a specific email address")
          ∧ (acceptInvite ctx u).inviteAfter = ctx.inviteAtUpdate
          ∧ (acceptInvite ctx u).membershipsAfter = ctx.memberships
          ∧ (acceptInvite ctx u).modifiedCount = 0))
    ∧ (inv.email = some e → e ≠ "" →
        checkEmailMatch inv ue = (strLower e == strLower ue))
    ∧ (pyTruthy inv.email = false →
        (checkEmailMatch inv ue = true
          ∧ acceptInvite ctx u = acceptAtomicPhase ctx u inv)) := by
  refine ⟨?_, ?_, ?_⟩
  · intro hpt hlk hmm
    simp [acceptInvite, hr, hv, hpt, hlk, hmm]
  · intro hem hne
    simp [checkEmailMatch, hem, hne]
  · intro hpt
    constructor
    · unfold checkEmailMatch
      cases hem : inv.email with
      | none => rfl
      | some s =>
          have hs : s = "" := by
            by_contra hne
            simp [pyTruthy, hem, hne] at hpt
          simp [hs]
    · simp [acceptInvite, hr, hv, hpt]

/-- C9 witness: concrete mismatch — `Invited@Example.com` vs
`other@example.com` raises the email-mismatch error and leaves the state
unchanged; and the comparison is the case-insensitive one. -/
theorem accept_email_restriction_witness :
    ((acceptInvite ctxEmailMismatch "u1").outcome =
        .error (.emailMismatch "This invite is for a specific email address")
      ∧ (acceptInvite ctxEmailMismatch "u1").inviteAfter = some emailInvite
      ∧ (acceptInvite ctxEmailMismatch "u1").membershipsAfter = []
      ∧ (acceptInvite ctxEmailMismatch "u1").modifiedCount = 0)
    ∧ checkEmailMatch emailInvite "invited@EXAMPLE.com" = true := by
  constructor
  · have h := (accept_email_restriction ctxEmailMismatch "u1" emailInvite
      "Invited@Example.com" "other@example.com" rfl (by decide)).1
      (by decide) (by decide) (by decide)
    exact ⟨h.1, h.2.1, h.2.2.1, h.2.2.2⟩
  · decide

/-- C6 (code bug): the one-time-token keys are formatted with keyword names
(`state=`, `token=`) that do not match the placeholders of their patterns
(`{state_hash}`, `{token_hash}`), so Python's `str.format` raises `KeyError`
inside every one-time-token store/take, `_safe_redis_operation` swallows it,
and the operations always return their fallbacks: stores return `False`
without writing, takes return `None` without reading — even against a
backend that already holds the payload under the intended key.  The `GETDEL`
primitive the take is built on is itself the intended atomic
return-and-remove (shown on the stored key), but the code never reaches it. -/
theorem one_time_token_take_always_misses :
    formatCacheKey OAUTH_STATE_KEY [("state", "test_state")]
        = .error "KeyError: state_hash"
    ∧ storeOauthState "test_state" "google" "http://cb" "t0" redisEmpty
        = (false, redisEmpty)
    ∧ getOauthState "test_state" oauthStoreOk = (none, oauthStoreOk)
    ∧ formatCacheKey PASSWORD_RESET_KEY [("token", hashTokenSecure "tok")]
        = .error "KeyError: token_hash"
    ∧ storePasswordResetToken "tok" "user1" redisEmpty = (false, redisEmpty)
    ∧ getPasswordResetToken "tok" pwdStoreOk = (none, pwdStoreOk)
    ∧ storeEmailVerificationToken "tok" "user1" redisEmpty = (false, redisEmpty)
    ∧ getEmailVerificationToken "tok" evStoreOk = (none, evStoreOk)
    ∧ Redis.getdel oauthStoreOk "oauth_state:test_state"
        = .ok (some "google|http://cb|t0", redisEmpty)
    ∧ Redis.getdel redisEmpty "oauth_state:test_state" = .ok (none, redisEmpty) := by
  decide

/-- The key-construction loop of bulk membership invalidation never raises:
both placeholders of `USER_MEMBERSHIPS_KEY` are supplied. -/
theorem buildMembershipKeys_isOk (u : String) (ids : List String) :
    ∃ ks, buildMembershipKeys u ids = Except.ok ks := by
  induction ids with
  | nil => exact ⟨[], rfl⟩
  | cons hd tl ih =>
      obtain ⟨ks, hks⟩ := ih
      unfold buildMembershipKeys
      rw [hks]
      exact ⟨_, rfl⟩

/-- C7: with the backend unreachable (`failing = true`), every CacheService
operation returns its documented fallback — `False` for stores, revocations
and blacklisting, `None` for retrievals, `0` for bulk invalidations, the
empty collection for list/stats operations — leaves the backend state
untouched, and propagates no exception (the operations are total functions
into plain result values). -/
theorem cache_ops_degrade_to_fallback
    (r : Redis) (hfail : r.failing = true)
    (u sid fresh tok st prov uri ca pwd uid jti oid md : String)
    (ttl : Int) (ids : List String) :
    storeRefreshToken u tok (some sid) fresh ttl r = (false, r)
    ∧ storeRefreshToken u tok none fresh ttl r = (false, r)
    ∧ getRefreshToken u (some sid) r = (none, r)
    ∧ getRefreshToken u none r = (none, r)
    ∧ revokeRefreshToken u (some sid) r = (false, r)
    ∧ revokeRefreshToken u none r = (false, r)
    ∧ revokeAllUserRefreshTokens u r = (0, r)
    ∧ storeOauthState st prov uri ca r = (false, r)
    ∧ getOauthState st r = (none, r)
    ∧ storePasswordResetToken pwd uid r = (false, r)
    ∧ getPasswordResetToken pwd r = (none, r)
    ∧ revokePasswordResetToken pwd r = (false, r)
    ∧ storeEmailVerificationToken pwd uid r = (false, r)
    ∧ getEmailVerificationToken pwd r = (none, r)
    ∧ blacklistTokenJti jti ttl r = (false, r)
    ∧ isTokenBlacklisted jti r = (false, r)
    ∧ cacheUserMembershipsOp u oid md ttl r = (false, r)
    ∧ getCachedUserMembership u oid r = (none, r)
    ∧ getCachedUserMembershipsOp u none r = ([], r)
    ∧ getCachedUserMembershipsOp u (some ids) r = ([], r)
    ∧ invalidateUserMembership u oid r = (false, r)
    ∧ invalidateUserMembershipsBulk u none r = (0, r)
    ∧ invalidateUserMembershipsBulk u (some ids) r = (0, r)
    ∧ invalidateOrganizationMembersCache oid r = (0, r)
    ∧ invalidateDashboardStats oid r = (none, r)
    ∧ cacheDashboardStats oid md ttl r = (false, r)
    ∧ getCachedDashboardStats oid r = (none, r)
    ∧ cleanupExpiredTokens r = ([], r) := by
  obtain ⟨entries, failing⟩ := r
  have hf : failing = true := hfail
  subst hf
  refine ⟨rfl, rfl, rfl, rfl, rfl, rfl, rfl, rfl, rfl, rfl, rfl, rfl, rfl, rfl,
    rfl, rfl, rfl, rfl, rfl, ?_, rfl, rfl, ?_, rfl, rfl, rfl, rfl, rfl⟩
  · cases ids with
    | nil => rfl
    | cons hd tl => rfl
  · obtain ⟨ks, hks⟩ := buildMembershipKeys_isOk u ids
    cases hv : ks with
    | nil =>
        simp only [invalidateUserMembershipsBulk, safeRedisOp, hks, hv]
        rfl
    | cons k kt =>
        simp only [invalidateUserMembershipsBulk, safeRedisOp, hks, hv]
        rfl

/-- C7 witness: concrete unreachable backend, a sample of the fallbacks. -/
theorem cache_ops_degrade_to_fallback_witness :
    redisDown.failing = true
    ∧ storeRefreshToken "u1" "tok" (some "s1") "s2" 100 redisDown
        = (false, redisDown)
    ∧ getOauthState "st" redisDown = (none, redisDown)
    ∧ invalidateUserMembershipsBulk "u1" (some ["org1"]) redisDown
        = (0, redisDown)
    ∧ cleanupExpiredTokens redisDown = ([], redisDown) :=
  ⟨rfl,
   (cache_ops_degrade_to_fallback redisDown rfl "u1" "s1" "s2" "tok" "st" "g"
      "cb" "t0" "pw" "uid" "j1" "org1" "md" 100 ["org1"]).1,
   (cache_ops_degrade_to_fallback redisDown rfl "u1" "s1" "s2" "tok" "st" "g"
      "cb" "t0" "pw" "uid" "j1" "org1" "md" 100 ["org1"]).2.2.2.2.2.2.2.2.1,
   (cache_ops_degrade_to_fallback redisDown rfl "u1" "s1" "s2" "tok" "st" "g"
      "cb" "t0" "pw" "uid" "j1" "org1" "md" 100
      ["org1"]).2.2.2.2.2.2.2.2.2.2.2.2.2.2.2.2.2.2.2.2.2.2.1,
   (cache_ops_degrade_to_fallback redisDown rfl "u1" "s1" "s2" "tok" "st" "g"
      "cb" "t0" "pw" "uid" "j1" "org1" "md" 100
      ["org1"]).2.2.2.2.2.2.2.2.2.2.2.2.2.2.2.2.2.2.2.2.2.2.2.2.2.2.2⟩

/-- C10: the revocation check fails open — whenever the backend raises, even
for a jti whose denylist entry is physically present in the store,
`is_token_blacklisted` returns `False`, so a revoked access token passes the
revocation check for the duration of the outage. -/
theorem blacklist_check_fails_open (r : Redis) (jti : String)
    (hfail : r.failing = true)
    (hmem : r.findVal ("jti_denylist:" ++ jti) = some "revoked") :
    isTokenBlacklisted jti r = (false, r) := by
  obtain ⟨entries, failing⟩ := r
  have hf : failing = true := hfail
  subst hf
  rfl

/-- C10 witness: with the backend up the stored denylist entry yields `True`;
the same store with the backend down yields `False`. -/
theorem blacklist_check_fails_open_witness :
    isTokenBlacklisted "jti-1" redisDown = (false, redisDown)
    ∧ (isTokenBlacklisted "jti-1" ⟨redisDown.entries, false⟩).1 = true :=
  ⟨blacklist_check_fails_open redisDown "jti-1" rfl (by decide), by decide⟩

end HectogonCRM
